import Mathlib

/-!
Verification of the road-safety risk pipeline (`backend/api/routes.py`).

The embedding models the request-scoped pipeline: input validation,
feature encoding (including the pandas DataFrame column updates of
`preprocess_input`), probability calibration (`adjust_probability`),
base-risk scoring and blending, threshold classification, risk-factor
analysis and recommendation generation.  Python floats are modelled as
exact rationals where the code only adds and compares, and as reals for
the calibration stage, which uses a fractional power.
-/

/-- A validated request: the five input fields of the `/predict` endpoint. -/
structure RequestInput where
  road_type : ℤ
  weather_conditions : String
  speed_limit : ℤ
  time_of_day : String
  junction_detail : String
deriving DecidableEq

/-- A raw JSON value appearing in a request body: an integer or a string. -/
inductive Value where
  | i (n : ℤ)
  | s (v : String)
deriving DecidableEq

/-- A raw request body: a partial map from field names to JSON values
(a Python dict). -/
def RawRequest := String → Option Value

/-- One entry of `INPUT_VALIDATORS`: field name, enumerated options,
required flag, and the fixed error message for a missing field. -/
structure FieldValidator where
  field : String
  options : List Value
  required : Bool
  error : String

/-- `INPUT_VALIDATORS` from `routes.py`, in dict insertion order. -/
def INPUT_VALIDATORS : List FieldValidator :=
  [⟨"road_type", [.i 1, .i 2, .i 3, .i 6], true,
    "Please select a valid road type (1: Residential, 2: Suburban, 3: Rural, 6: Urban)"⟩,
   ⟨"weather_conditions", [.s "Fine", .s "Rain", .s "Snow", .s "Fog"], true,
    "Please select valid weather conditions"⟩,
   ⟨"speed_limit", [.i 20, .i 30, .i 40, .i 50, .i 60, .i 70], true,
    "Please select a valid speed limit"⟩,
   ⟨"time_of_day", [.s "Morning", .s "Afternoon", .s "Evening", .s "Night"], true,
    "Please select a valid time of day"⟩,
   ⟨"junction_detail", [.s "T Junction", .s "Crossroads", .s "Roundabout", .s "Not at junction"], true,
    "Please select a valid junction type"⟩]

/-- The single quote character used by Python `repr` of a string. -/
def pyQuote : String := String.singleton (Char.ofNat 39)

/-- Python `repr` of a raw value, as it appears inside a formatted list. -/
def valueRepr : Value → String
  | .i n => toString n
  | .s v => pyQuote ++ v ++ pyQuote

/-- Python `repr` of an options list, as interpolated by the f-string of
`validate_input`. -/
def optionsRepr (opts : List Value) : String :=
  "[" ++ String.intercalate ", " (opts.map valueRepr) ++ "]"

/-- The generated message for a present-but-invalid field:
f-string `Invalid value for {field}. Options are: {options}`. -/
def invalidOptionsMessage (field : String) (opts : List Value) : String :=
  "Invalid value for " ++ field ++ ". Options are: " ++ optionsRepr opts

/-- `validate_input` from `routes.py`: fold over the validators, appending
an error entry for a required-but-missing field, or a generated message for
a present value outside the enumerated options. -/
def validate_input (data : RawRequest) : List (String × String) :=
  INPUT_VALIDATORS.foldl
    (fun errors v =>
      if v.required = true ∧ data v.field = none then
        errors ++ [(v.field, v.error)]
      else
        match data v.field with
        | some x =>
            if x ∈ v.options then errors
            else errors ++ [(v.field, invalidOptionsMessage v.field v.options)]
        | none => errors)
    []

/-- The per-field error entries as described by the spec: a fixed message
when a required field is absent, a generated message listing the valid
options when the value is outside its enumerated domain, nothing otherwise. -/
def fieldErrorsSpec (data : RawRequest) (v : FieldValidator) : List (String × String) :=
  match data v.field with
  | none => if v.required = true then [(v.field, v.error)] else []
  | some x =>
      if x ∈ v.options then []
      else [(v.field, invalidOptionsMessage v.field v.options)]

/-- A raw request is valid when every validated field is present with a
value inside its enumerated domain. -/
def ValidRaw (data : RawRequest) : Prop :=
  ∀ v ∈ INPUT_VALIDATORS, ∃ x, data v.field = some x ∧ x ∈ v.options

/-- `base_risk_score` as computed inline in `predict` (`routes.py`
lines 266-276): five independent 0.1 increments. -/
def base_risk_score (data : RequestInput) : ℚ :=
  let b : ℚ := 0
  let b := if data.speed_limit > 40 then b + 0.1 else b
  let b := if data.time_of_day ∈ ["Night", "Evening"] then b + 0.1 else b
  let b := if data.weather_conditions ≠ "Fine" then b + 0.1 else b
  let b := if data.junction_detail ≠ "Not at junction" then b + 0.1 else b
  if data.road_type ∈ [6, 3] then b + 0.1 else b

/-- The number of base-risk trigger conditions that hold for an input. -/
def baseTriggerCount (data : RequestInput) : ℕ :=
  (if data.speed_limit > 40 then 1 else 0) +
  (if data.time_of_day ∈ ["Night", "Evening"] then 1 else 0) +
  (if data.weather_conditions ≠ "Fine" then 1 else 0) +
  (if data.junction_detail ≠ "Not at junction" then 1 else 0) +
  (if data.road_type ∈ [6, 3] then 1 else 0)

lemma base_risk_score_eq (d : RequestInput) :
    base_risk_score d = (baseTriggerCount d : ℚ) / 10 := by
  unfold base_risk_score baseTriggerCount
  split_ifs <;> push_cast <;> norm_num

lemma baseTriggerCount_le (d : RequestInput) : baseTriggerCount d ≤ 5 := by
  unfold baseTriggerCount
  split_ifs <;> norm_num

/-- C3: the base risk score equals 0.1 times the number of the five trigger
conditions that hold, hence is a multiple of 0.1 lying in [0, 0.5]. -/
theorem c3_base_risk_score_structure (d : RequestInput) :
    base_risk_score d = (baseTriggerCount d : ℚ) * (1 / 10) ∧
    baseTriggerCount d ≤ 5 ∧
    0 ≤ base_risk_score d ∧ base_risk_score d ≤ 1 / 2 := by
  have h := base_risk_score_eq d
  have h5 := baseTriggerCount_le d
  refine ⟨by rw [h]; ring, h5, ?_, ?_⟩
  · rw [h]; positivity
  · rw [h]
    have : (baseTriggerCount d : ℚ) ≤ 5 := by exact_mod_cast h5
    linarith

noncomputable section

/-- The `high` entry of `RISK_THRESHOLDS` in `routes.py`. -/
def RISK_THRESHOLDS_high : ℝ := 0.70

/-- The risk-level classification of `predict`: strict greater-than
comparison of the final probability against the high-risk threshold. -/
def classifyRisk (final_probability : ℝ) : String :=
  if final_probability > RISK_THRESHOLDS_high then "High Risk" else "Not High Risk"

/-- `adjust_probability` from `routes.py`: bias correction, nonlinear
remap, additive correction based on the distance of the raw probability
from 0.5, and a clamp to [0, 1]. -/
def adjust_probability (prob : ℝ) : ℝ :=
  let adjusted := (prob * 0.5) / (prob * 0.5 + (1 - prob))
  let final_prob :=
    if adjusted > 0.5 then
      let normalized := (adjusted - 0.5) * 2
      let transformed := normalized ^ (5 : ℕ)
      0.2 + transformed * 0.7
    else
      let normalized := adjusted * 2
      0.2 * normalized ^ (0.33 : ℝ)
  let base_diff := |prob - 0.5|
  let corrected :=
    if final_prob < 0.4 then final_prob + base_diff * 0.02
    else final_prob + base_diff * 0.05
  min (max corrected 0) 1

/-- Bias-correction stage, in the spec's words:
`adjusted = (raw*0.5) / (raw*0.5 + (1-raw))`. -/
def spec_bias (raw : ℝ) : ℝ := (raw * 0.5) / (raw * 0.5 + (1 - raw))

/-- Nonlinear remap stage, in the spec's words: fifth power above 0.5,
0.33 power below. -/
def spec_remap (adjusted : ℝ) : ℝ :=
  if adjusted > 0.5 then 0.2 + ((adjusted - 0.5) * 2) ^ (5 : ℕ) * 0.7
  else 0.2 * ((adjusted * 2) ^ (0.33 : ℝ))

/-- Additive correction stage, in the spec's words: add `|raw-0.5|*0.02`
when the remapped value is below 0.4, else `|raw-0.5|*0.05`. -/
def spec_correction (raw remapped : ℝ) : ℝ :=
  if remapped < 0.4 then remapped + |raw - 0.5| * 0.02
  else remapped + |raw - 0.5| * 0.05

/-- The full calibration reference definition assembled from the spec's
stages, clamped to [0, 1]. -/
def calibrate_spec (raw : ℝ) : ℝ :=
  min (max (spec_correction raw (spec_remap (spec_bias raw))) 0) 1

/-- `final_probability` as computed in `predict`:
`(adjusted_probability * 0.7) + (base_risk_score * 0.3)`. -/
def final_probability (raw_probability : ℝ) (data : RequestInput) : ℝ :=
  adjust_probability raw_probability * 0.7 + (base_risk_score data : ℝ) * 0.3

end

lemma adjust_probability_eq_spec (r : ℝ) :
    adjust_probability r = calibrate_spec r := by
  unfold adjust_probability calibrate_spec spec_correction spec_remap spec_bias
  rfl

lemma spec_bias_mem (r : ℝ) (h0 : 0 ≤ r) (h1 : r ≤ 1) :
    0 ≤ spec_bias r ∧ spec_bias r ≤ 1 := by
  unfold spec_bias
  have hden : (0 : ℝ) < r * 0.5 + (1 - r) := by nlinarith
  constructor
  · exact div_nonneg (by nlinarith) hden.le
  · rw [div_le_one hden]; nlinarith

lemma spec_remap_bounds (a : ℝ) (h0 : 0 ≤ a) (h1 : a ≤ 1) :
    0 ≤ spec_remap a ∧ spec_remap a ≤ 0.9 := by
  unfold spec_remap
  split_ifs with h
  · have hn0 : (0 : ℝ) ≤ (a - 0.5) * 2 := by linarith
    have hn1 : (a - 0.5) * 2 ≤ 1 := by linarith
    have hp0 : (0 : ℝ) ≤ ((a - 0.5) * 2) ^ (5 : ℕ) := pow_nonneg hn0 5
    have hp1 : ((a - 0.5) * 2) ^ (5 : ℕ) ≤ 1 := pow_le_one₀ hn0 hn1
    constructor <;> nlinarith
  · push_neg at h
    have hn0 : (0 : ℝ) ≤ a * 2 := by linarith
    have hn1 : a * 2 ≤ 1 := by linarith
    have hp0 : (0 : ℝ) ≤ (a * 2) ^ (0.33 : ℝ) := Real.rpow_nonneg hn0 _
    have hp1 : (a * 2) ^ (0.33 : ℝ) ≤ 1 := Real.rpow_le_one hn0 hn1 (by norm_num)
    constructor <;> nlinarith

lemma spec_correction_le (r m : ℝ) (hm : m ≤ 0.9) (hr0 : 0 ≤ r) (hr1 : r ≤ 1) :
    spec_correction r m ≤ 0.925 := by
  unfold spec_correction
  have hd : |r - 0.5| ≤ 0.5 := abs_le.2 ⟨by linarith, by linarith⟩
  have hd0 : (0 : ℝ) ≤ |r - 0.5| := abs_nonneg _
  split_ifs with h <;> nlinarith

lemma adjust_probability_le (r : ℝ) (h0 : 0 ≤ r) (h1 : r ≤ 1) :
    adjust_probability r ≤ 0.925 := by
  rw [adjust_probability_eq_spec]
  unfold calibrate_spec
  obtain ⟨hb0, hb1⟩ := spec_bias_mem r h0 h1
  obtain ⟨hm0, hm1⟩ := spec_remap_bounds _ hb0 hb1
  have hc := spec_correction_le r _ hm1 h0 h1
  calc min (max (spec_correction r (spec_remap (spec_bias r))) 0) 1
      ≤ max (spec_correction r (spec_remap (spec_bias r))) 0 := min_le_left _ _
    _ ≤ 0.925 := max_le hc (by norm_num)

lemma classifyRisk_eq_high_iff (p : ℝ) :
    classifyRisk p = "High Risk" ↔ p > RISK_THRESHOLDS_high := by
  unfold classifyRisk
  split_ifs with h
  · simp [h]
  · constructor
    · intro hc; exact absurd hc (by decide)
    · intro hc; exact absurd hc h

/-- C2: for every raw probability in [0, 1], the code's calibration
`adjust_probability` coincides with the spec's reference definition (bias
correction, nonlinear remap, additive correction, clamp), and the final
probability handed to classification is the blend
`0.7 * adjusted_probability + 0.3 * base_risk_score`. -/
theorem c2_calibration_matches_spec (r : ℝ) (h0 : 0 ≤ r) (h1 : r ≤ 1) :
    adjust_probability r = calibrate_spec r ∧
    ∀ d : RequestInput,
      final_probability r d =
        0.7 * adjust_probability r + 0.3 * (base_risk_score d : ℝ) := by
  refine ⟨adjust_probability_eq_spec r, fun d => ?_⟩
  unfold final_probability
  ring

/-- C2 witness: the calibration equality and blend formula instantiated at
the concrete raw probability 1/2. -/
theorem c2_calibration_matches_spec_witness :
    (0 : ℝ) ≤ 1 / 2 ∧ (1 / 2 : ℝ) ≤ 1 ∧
    (adjust_probability (1 / 2) = calibrate_spec (1 / 2) ∧
     ∀ d : RequestInput,
       final_probability (1 / 2) d =
         0.7 * adjust_probability (1 / 2) + 0.3 * (base_risk_score d : ℝ)) :=
  ⟨by norm_num, by norm_num,
   c2_calibration_matches_spec (1 / 2) (by norm_num) (by norm_num)⟩

/-- C4: for every raw probability in [0, 1], the calibrated probability
lies in [0, 1]; the clamp invariant holds, boundary inputs included. -/
theorem c4_adjust_probability_range (r : ℝ) (h0 : 0 ≤ r) (h1 : r ≤ 1) :
    0 ≤ adjust_probability r ∧ adjust_probability r ≤ 1 := by
  rw [adjust_probability_eq_spec]
  unfold calibrate_spec
  constructor
  · exact le_min (le_max_right _ _) (by norm_num)
  · exact min_le_right _ _

/-- C4 witness: the range invariant instantiated at the boundary raw
probability 1. -/
theorem c4_adjust_probability_range_witness :
    (0 : ℝ) ≤ 1 ∧ (1 : ℝ) ≤ 1 ∧
    (0 ≤ adjust_probability 1 ∧ adjust_probability 1 ≤ 1) :=
  ⟨by norm_num, by norm_num,
   c4_adjust_probability_range 1 (by norm_num) (by norm_num)⟩

/-- C5: classification compares the final probability to the 0.70
threshold with strict greater-than; a probability exactly equal to the
threshold yields Not High Risk. -/
theorem c5_threshold_strict (p : ℝ) :
    (classifyRisk p = "High Risk" ↔ p > RISK_THRESHOLDS_high) ∧
    RISK_THRESHOLDS_high = 0.70 ∧
    classifyRisk 0.70 = "Not High Risk" := by
  refine ⟨classifyRisk_eq_high_iff p, rfl, ?_⟩
  unfold classifyRisk
  rw [if_neg]
  unfold RISK_THRESHOLDS_high
  norm_num

/-- C10: the calibrated probability never exceeds 0.925, so the final
probability is at most `0.6475 + 0.3 * base_risk_score`; the High Risk
label is reachable only when the base risk score is at least 0.2 (at least
two of the five triggers hold), and a zero base risk score forces Not High
Risk for every model output. -/
theorem c10_high_risk_requires_base_triggers (r : ℝ) (d : RequestInput)
    (h0 : 0 ≤ r) (h1 : r ≤ 1) :
    adjust_probability r ≤ 0.925 ∧
    final_probability r d ≤ 0.6475 + 0.3 * (base_risk_score d : ℝ) ∧
    (classifyRisk (final_probability r d) = "High Risk" →
      (1 / 5 : ℚ) ≤ base_risk_score d ∧ 2 ≤ baseTriggerCount d) ∧
    (base_risk_score d = 0 →
      classifyRisk (final_probability r d) = "Not High Risk") := by
  have hle := adjust_probability_le r h0 h1
  have hfin : final_probability r d ≤ 0.6475 + 0.3 * (base_risk_score d : ℝ) := by
    unfold final_probability
    nlinarith
  refine ⟨hle, hfin, ?_, ?_⟩
  · intro hhigh
    rw [classifyRisk_eq_high_iff] at hhigh
    unfold RISK_THRESHOLDS_high at hhigh
    have hgt : (0.175 : ℝ) < (base_risk_score d : ℝ) := by nlinarith
    have hbq : base_risk_score d = (baseTriggerCount d : ℚ) / 10 :=
      base_risk_score_eq d
    have hcount : 2 ≤ baseTriggerCount d := by
      by_contra hc
      push_neg at hc
      interval_cases hcnt : baseTriggerCount d <;>
        rw [hbq] at hgt <;> push_cast at hgt <;> norm_num at hgt
    refine ⟨?_, hcount⟩
    rw [hbq]
    have : (2 : ℚ) ≤ (baseTriggerCount d : ℚ) := by exact_mod_cast hcount
    linarith
  · intro hzero
    unfold classifyRisk
    rw [if_neg]
    unfold RISK_THRESHOLDS_high
    rw [hzero] at hfin
    push_cast at hfin
    intro hgt
    nlinarith

/-- C10 witness: the bound and its consequences instantiated at raw
probability 1/2 and a trigger-free input. -/
theorem c10_high_risk_requires_base_triggers_witness :
    (0 : ℝ) ≤ 1 / 2 ∧ (1 / 2 : ℝ) ≤ 1 ∧
    (adjust_probability (1 / 2) ≤ 0.925 ∧
     final_probability (1 / 2) ⟨1, "Fine", 20, "Morning", "Not at junction"⟩ ≤
       0.6475 + 0.3 * (base_risk_score ⟨1, "Fine", 20, "Morning", "Not at junction"⟩ : ℝ) ∧
     (classifyRisk (final_probability (1 / 2) ⟨1, "Fine", 20, "Morning", "Not at junction"⟩) = "High Risk" →
       (1 / 5 : ℚ) ≤ base_risk_score ⟨1, "Fine", 20, "Morning", "Not at junction"⟩ ∧
       2 ≤ baseTriggerCount ⟨1, "Fine", 20, "Morning", "Not at junction"⟩) ∧
     (base_risk_score ⟨1, "Fine", 20, "Morning", "Not at junction"⟩ = 0 →
       classifyRisk (final_probability (1 / 2) ⟨1, "Fine", 20, "Morning", "Not at junction"⟩) = "Not High Risk")) :=
  ⟨by norm_num, by norm_num,
   c10_high_risk_requires_base_triggers (1 / 2)
     ⟨1, "Fine", 20, "Morning", "Not at junction"⟩ (by norm_num) (by norm_num)⟩

/-- `road_type_desc` from `calculate_risk_factors`, in dict insertion
order. -/
def road_type_desc : List (ℤ × String) :=
  [(6, "Urban area with high traffic"),
   (3, "Rural road with potential hazards"),
   (2, "Suburban area with moderate traffic"),
   (1, "Residential area with lower traffic")]

/-- `calculate_risk_factors` from `routes.py`: sequential conditional
appends for time, weather, speed, junction and road type. -/
def calculate_risk_factors (data : RequestInput) : List String :=
  let risk_factors : List String := []
  let risk_factors :=
    if data.time_of_day ∈ ["Night", "Evening"] then
      risk_factors ++ ["Limited visibility during night/evening hours"]
    else risk_factors
  let risk_factors :=
    if data.weather_conditions ≠ "Fine" then
      risk_factors ++ ["Adverse weather conditions (" ++ data.weather_conditions ++ ")"]
    else risk_factors
  let risk_factors :=
    if data.speed_limit > 40 then risk_factors ++ ["High speed zone"]
    else risk_factors
  let risk_factors :=
    if data.junction_detail ≠ "Not at junction" then
      risk_factors ++ ["Complex junction type (" ++ data.junction_detail ++ ")"]
    else risk_factors
  if (road_type_desc.lookup data.road_type).isSome then
    if data.road_type ∈ [6, 3] then
      risk_factors ++ [(road_type_desc.lookup data.road_type).getD ""]
    else risk_factors
  else risk_factors

/-- The road-type rule of the spec's risk-factor table: a factor for
Urban (6) or Rural (3) only; every other road type contributes nothing. -/
def roadTypeFactor (rt : ℤ) : List String :=
  if rt = 6 then ["Urban area with high traffic"]
  else if rt = 3 then ["Rural road with potential hazards"]
  else []

/-- The risk-factor rule table as the spec describes it: five independent
rules in a fixed order. -/
def riskFactorRulesSpec (data : RequestInput) : List String :=
  (if data.time_of_day ∈ ["Night", "Evening"] then
    ["Limited visibility during night/evening hours"] else []) ++
  (if data.weather_conditions ≠ "Fine" then
    ["Adverse weather conditions (" ++ data.weather_conditions ++ ")"] else []) ++
  (if data.speed_limit > 40 then ["High speed zone"] else []) ++
  (if data.junction_detail ≠ "Not at junction" then
    ["Complex junction type (" ++ data.junction_detail ++ ")"] else []) ++
  roadTypeFactor data.road_type

/-- C7: the risk-factor list equals the spec's ordered five-rule table;
the road-type rule contributes a factor only for road types 6 and 3, so
road types 1 and 2 never contribute one. -/
theorem c7_risk_factor_rules (d : RequestInput) :
    calculate_risk_factors d = riskFactorRulesSpec d ∧
    (d.road_type = 1 ∨ d.road_type = 2 → roadTypeFactor d.road_type = []) := by
  have heq : calculate_risk_factors d = riskFactorRulesSpec d := by
    unfold calculate_risk_factors riskFactorRulesSpec roadTypeFactor
    by_cases h6 : d.road_type = 6
    · simp [h6, road_type_desc, List.lookup]
      split_ifs <;> simp
    · by_cases h3 : d.road_type = 3
      · simp [h3, h6, road_type_desc, List.lookup]
        split_ifs <;> simp
      · have hmem : d.road_type ∉ ([6, 3] : List ℤ) := by simp [h6, h3]
        simp only [if_neg hmem, hmem, if_false, if_neg h6, if_neg h3]
        split_ifs <;> simp_all
  refine ⟨heq, fun h12 => ?_⟩
  unfold roadTypeFactor
  have h6 : d.road_type ≠ 6 := by rcases h12 with h | h <;> omega
  have h3 : d.road_type ≠ 3 := by rcases h12 with h | h <;> omega
  rw [if_neg h6, if_neg h3]

/-- The accumulation phase of `generate_recommendations` from
`routes.py`: the sequential conditional appends of both risk-level
branches, before the fallback check. -/
def recommendations_accum (data : RequestInput) (risk_level : String)
    (risk_factors : List String) : List String :=
  let recommendations : List String := []
  if risk_level = "High Risk" then
    let recommendations :=
      if data.speed_limit > 40 then
        recommendations ++ ["Consider reducing speed limit in this area"]
      else recommendations
    let recommendations :=
      if data.junction_detail ≠ "Not at junction" then
        recommendations ++ ["Install traffic monitoring cameras at the junction"]
      else recommendations
    let recommendations :=
      if data.time_of_day ∈ ["Night", "Evening"] then
        recommendations ++ ["Improve street lighting conditions"]
      else recommendations
    let recommendations :=
      if data.weather_conditions ≠ "Fine" then
        recommendations ++
          ["Install weather warning signs for " ++ data.weather_conditions ++ " conditions"]
      else recommendations
    if risk_factors.length > 0 then
      recommendations ++ ["Increase police patrols in the area"]
    else recommendations
  else
    let recommendations :=
      if data.junction_detail ≠ "Not at junction" then
        recommendations ++ ["Consider additional signage at the junction"]
      else recommendations
    let recommendations :=
      if data.weather_conditions ≠ "Fine" then
        recommendations ++ ["Ensure regular road maintenance"]
      else recommendations
    let recommendations :=
      if data.time_of_day ∈ ["Night", "Evening"] then
        recommendations ++ ["Consider enhanced road markings"]
      else recommendations
    let recommendations :=
      if risk_factors.length > 0 then
        recommendations ++ ["Monitor conditions and maintain current safety measures"]
      else recommendations ++ ["Continue regular maintenance and monitoring"]
    let recommendations :=
      if data.road_type = 1 then
        recommendations ++ ["Maintain residential area safety features"]
      else recommendations
    if data.speed_limit ≤ 30 then
      recommendations ++ ["Current speed restrictions are appropriate"]
    else recommendations

/-- `generate_recommendations` from `routes.py`: the accumulated
recommendations, or the fallback message when nothing was appended. -/
def generate_recommendations (data : RequestInput) (risk_level : String)
    (risk_factors : List String) : List String :=
  if recommendations_accum data risk_level risk_factors = [] then
    ["No specific recommendations needed at this time"]
  else recommendations_accum data risk_level risk_factors

/-- The recommendation rule table as the spec describes it: a fixed
ordered list of independent predicate-to-message rules, each appended
when its condition holds, evaluated per risk level. -/
def recommendationRulesSpec (data : RequestInput) (risk_level : String)
    (risk_factors : List String) : List String :=
  if risk_level = "High Risk" then
    (if data.speed_limit > 40 then
      ["Consider reducing speed limit in this area"] else []) ++
    (if data.junction_detail ≠ "Not at junction" then
      ["Install traffic monitoring cameras at the junction"] else []) ++
    (if data.time_of_day ∈ ["Night", "Evening"] then
      ["Improve street lighting conditions"] else []) ++
    (if data.weather_conditions ≠ "Fine" then
      ["Install weather warning signs for " ++ data.weather_conditions ++ " conditions"]
     else []) ++
    (if risk_factors ≠ [] then ["Increase police patrols in the area"] else [])
  else
    (if data.junction_detail ≠ "Not at junction" then
      ["Consider additional signage at the junction"] else []) ++
    (if data.weather_conditions ≠ "Fine" then
      ["Ensure regular road maintenance"] else []) ++
    (if data.time_of_day ∈ ["Night", "Evening"] then
      ["Consider enhanced road markings"] else []) ++
    (if risk_factors ≠ [] then
      ["Monitor conditions and maintain current safety measures"]
     else ["Continue regular maintenance and monitoring"]) ++
    (if data.road_type = 1 then
      ["Maintain residential area safety features"] else []) ++
    (if data.speed_limit ≤ 30 then
      ["Current speed restrictions are appropriate"] else [])

lemma ite_append_acc {α : Type} (c : Prop) [Decidable c] (acc m : List α) :
    (if c then acc ++ m else acc) = acc ++ (if c then m else []) := by
  split_ifs <;> simp

lemma ite_append_acc_both {α : Type} (c : Prop) [Decidable c] (acc m m2 : List α) :
    (if c then acc ++ m else acc ++ m2) = acc ++ (if c then m else m2) := by
  split_ifs <;> rfl

lemma length_pos_ite {α β : Type} [DecidableEq α] (l : List α) (x y : β) :
    (if l.length > 0 then x else y) = (if l ≠ [] then x else y) := by
  by_cases h : l = [] <;> simp [h]

lemma recommendations_accum_eq (d : RequestInput) (risk_level : String)
    (risk_factors : List String) :
    recommendations_accum d risk_level risk_factors =
      recommendationRulesSpec d risk_level risk_factors := by
  unfold recommendations_accum recommendationRulesSpec
  by_cases hl : risk_level = "High Risk" <;>
    simp only [hl, if_true, if_false, ite_true, ite_false, length_pos_ite,
      ite_append_acc, ite_append_acc_both, List.nil_append, List.append_assoc]

/-- C8: the recommendation list is the spec's ordered rule table when any
rule fires, the single fallback message otherwise, and is never empty. -/
theorem c8_recommendations_nonempty (d : RequestInput) (risk_level : String)
    (risk_factors : List String) :
    generate_recommendations d risk_level risk_factors =
      (if recommendationRulesSpec d risk_level risk_factors = [] then
        ["No specific recommendations needed at this time"]
       else recommendationRulesSpec d risk_level risk_factors) ∧
    generate_recommendations d risk_level risk_factors ≠ [] := by
  have heq : generate_recommendations d risk_level risk_factors =
      (if recommendationRulesSpec d risk_level risk_factors = [] then
        ["No specific recommendations needed at this time"]
       else recommendationRulesSpec d risk_level risk_factors) := by
    unfold generate_recommendations
    rw [recommendations_accum_eq]
  refine ⟨heq, ?_⟩
  rw [heq]
  split_ifs with h
  · simp
  · exact h

lemma validate_step_eq (data : RawRequest) (errors : List (String × String))
    (v : FieldValidator) :
    (if v.required = true ∧ data v.field = none then
      errors ++ [(v.field, v.error)]
     else
      match data v.field with
      | some x =>
          if x ∈ v.options then errors
          else errors ++ [(v.field, invalidOptionsMessage v.field v.options)]
      | none => errors) = errors ++ fieldErrorsSpec data v := by
  unfold fieldErrorsSpec
  cases hdv : data v.field with
  | none =>
      cases hreq : v.required <;> simp [hreq, hdv]
  | some x =>
      by_cases hx : x ∈ v.options <;> simp [hdv, hx]

lemma validate_foldl_eq (data : RawRequest) (l : List FieldValidator) :
    ∀ acc : List (String × String),
      l.foldl
        (fun errors v =>
          if v.required = true ∧ data v.field = none then
            errors ++ [(v.field, v.error)]
          else
            match data v.field with
            | some x =>
                if x ∈ v.options then errors
                else errors ++ [(v.field, invalidOptionsMessage v.field v.options)]
            | none => errors) acc =
      acc ++ (l.map (fieldErrorsSpec data)).flatten := by
  induction l with
  | nil => intro acc; simp
  | cons v rest ih =>
      intro acc
      simp only [List.foldl_cons, List.map_cons, List.flatten_cons]
      rw [validate_step_eq, ih, List.append_assoc]

lemma fieldErrorsSpec_eq_nil_iff (data : RawRequest) (v : FieldValidator)
    (hreq : v.required = true) :
    fieldErrorsSpec data v = [] ↔ ∃ x, data v.field = some x ∧ x ∈ v.options := by
  unfold fieldErrorsSpec
  cases hdv : data v.field with
  | none => simp [hreq, hdv]
  | some x =>
      by_cases hx : x ∈ v.options <;> simp [hdv, hx]

/-- C9: the validator's error list is exactly the concatenation, in
validator order, of the per-field error entries (fixed message for an
absent field, generated options-listing message for an out-of-domain
value), so all field errors are collected in one pass; the result is
empty exactly when every field is present and within its domain. -/
theorem c9_validate_input_characterization (data : RawRequest) :
    validate_input data = (INPUT_VALIDATORS.map (fieldErrorsSpec data)).flatten ∧
    (validate_input data = [] ↔ ValidRaw data) := by
  have heq : validate_input data = (INPUT_VALIDATORS.map (fieldErrorsSpec data)).flatten := by
    unfold validate_input
    rw [validate_foldl_eq data INPUT_VALIDATORS []]
    simp
  refine ⟨heq, ?_⟩
  rw [heq]
  unfold ValidRaw
  rw [List.flatten_eq_nil_iff]
  constructor
  · intro h v hv
    have hreq : v.required = true := by
      revert hv
      unfold INPUT_VALIDATORS
      intro hv
      simp only [List.mem_cons, List.not_mem_nil, or_false] at hv
      rcases hv with h1 | h1 | h1 | h1 | h1 <;> rw [h1]
    exact (fieldErrorsSpec_eq_nil_iff data v hreq).1
      (h (fieldErrorsSpec data v) (List.mem_map_of_mem _ hv))
  · intro h l hl
    obtain ⟨v, hv, rfl⟩ := List.mem_map.1 hl
    have hreq : v.required = true := by
      revert hv
      unfold INPUT_VALIDATORS
      intro hv
      simp only [List.mem_cons, List.not_mem_nil, or_false] at hv
      rcases hv with h1 | h1 | h1 | h1 | h1 <;> rw [h1]
    exact (fieldErrorsSpec_eq_nil_iff data v hreq).2 (h v hv)

/-- A DataFrame cell of `preprocess_input`: an integer, string, or float
column value. -/
inductive Cell where
  | i (n : ℤ)
  | s (v : String)
  | q (x : ℚ)
deriving DecidableEq

/-- A single-row DataFrame: an association list of column assignments,
most recent first. -/
def Df := List (String × Cell)

/-- Column assignment `df[k] = v`: the newest binding shadows older ones. -/
def dfSet (df : Df) (k : String) (v : Cell) : Df := (k, v) :: df

/-- Column read `df[k].values[0]`; columns are only read after being
assigned, so the default is never relevant. -/
def dfGet (df : Df) (k : String) : Cell :=
  (List.lookup k df).getD (Cell.i 0)

/-- A cell converted to a float, as by `astype(float)` or float
arithmetic on a numeric column. -/
def cellToQ : Cell → ℚ
  | .i n => (n : ℚ)
  | .q x => x
  | .s _ => 0

/-- A cell's integer content, for integer column arithmetic. -/
def cellInt : Cell → ℤ
  | .i n => n
  | .q _ => 0
  | .s _ => 0

/-- A cell interpolated into an f-string column name. -/
def cellStr : Cell → String
  | .i n => toString n
  | .s v => v
  | .q x => toString x.num ++ "/" ++ toString x.den

/-- Python `cell != text`: values of different types are unequal. -/
def cellNeStr (c : Cell) (t : String) : Bool :=
  match c with
  | .s v => v ≠ t
  | _ => true

/-- Python `cell in [strings]`: false for non-string cells. -/
def cellMemStr (c : Cell) (ts : List String) : Bool :=
  match c with
  | .s v => v ∈ ts
  | _ => false

/-- `weather_map.get(value, 1)` from `preprocess_input`. -/
def weather_map (c : Cell) : ℤ :=
  match c with
  | .s "Fine" => 1
  | .s "Rain" => 2
  | .s "Snow" => 3
  | .s "Fog" => 4
  | _ => 1

/-- `time_to_light.get(value, 1)` from `preprocess_input`. -/
def time_to_light (c : Cell) : ℤ :=
  match c with
  | .s "Morning" => 1
  | .s "Afternoon" => 1
  | .s "Evening" => 4
  | .s "Night" => 4
  | _ => 1

/-- `junction_map.get(value, 0)` from `preprocess_input`. -/
def junction_map (c : Cell) : ℤ :=
  match c with
  | .s "Not at junction" => 0
  | .s "T Junction" => 1
  | .s "Crossroads" => 2
  | .s "Roundabout" => 3
  | _ => 0

/-- `preprocess_input` from `routes.py`, modelled on the DataFrame: the
input row, the zero-initialization of every schema feature, the one-hot
and derived-feature assignments in program order, and the final selection
`df[feature_names]` of the schema's columns in schema order. -/
def preprocess_input (feature_names : List String) (data : RequestInput) :
    List (String × ℚ) :=
  let df : Df := [("road_type", Cell.i data.road_type),
                  ("weather_conditions", Cell.s data.weather_conditions),
                  ("speed_limit", Cell.i data.speed_limit),
                  ("time_of_day", Cell.s data.time_of_day),
                  ("junction_detail", Cell.s data.junction_detail)]
  let df := feature_names.foldl (fun d f => dfSet d f (Cell.i 0)) df
  let road_type := dfGet df "road_type"
  let df := dfSet df ("road_type_" ++ cellStr road_type) (Cell.i 1)
  let weather_code := weather_map (dfGet df "weather_conditions")
  let df := dfSet df ("weather_conditions_" ++ toString weather_code) (Cell.i 1)
  let light_code := time_to_light (dfGet df "time_of_day")
  let df := dfSet df ("light_conditions_" ++ toString light_code) (Cell.i 1)
  let junction_code := junction_map (dfGet df "junction_detail")
  let df := dfSet df ("junction_detail_" ++ toString junction_code) (Cell.i 1)
  let df := dfSet df "speed_limit" (Cell.q (cellToQ (dfGet df "speed_limit") / 70))
  let df := dfSet df "number_of_vehicles" (Cell.i 1)
  let df := dfSet df "number_of_casualties" (Cell.i 0)
  let df := dfSet df "casualty_rate" (Cell.i 0)
  let df := dfSet df "weather_risk"
    (Cell.i (if cellNeStr (dfGet df "weather_conditions") "Fine" then 1 else 0))
  let df := dfSet df "surface_risk"
    (Cell.i (if cellMemStr (dfGet df "weather_conditions") ["Rain", "Snow"] then 1 else 0))
  let df := dfSet df "combined_risk"
    (Cell.i (cellInt (dfGet df "weather_risk") + cellInt (dfGet df "surface_risk")))
  let df := dfSet df "is_night"
    (Cell.i (if cellMemStr (dfGet df "time_of_day") ["Night", "Evening"] then 1 else 0))
  let df := dfSet df "is_rush_hour"
    (Cell.i (if cellMemStr (dfGet df "time_of_day") ["Morning", "Evening"] then 1 else 0))
  let df := dfSet df "is_weekend" (Cell.i 0)
  let df := dfSet df "high_speed"
    (Cell.i (if cellToQ (dfGet df "speed_limit") > 40 then 1 else 0))
  let df := dfSet df "night_speed_risk"
    (Cell.i (cellInt (dfGet df "is_night") * cellInt (dfGet df "high_speed")))
  let df := dfSet df "weather_speed_risk"
    (Cell.i (cellInt (dfGet df "weather_risk") * cellInt (dfGet df "high_speed")))
  feature_names.map (fun f => (f, cellToQ (dfGet df f)))

/-- A representative model schema: the one-hot groups, the continuous
speed limit, and the derived features, as the loaded artifact's ordered
feature-name list. -/
def exampleSchema : List String :=
  ["speed_limit",
   "road_type_1", "road_type_2", "road_type_3", "road_type_6",
   "weather_conditions_1", "weather_conditions_2", "weather_conditions_3", "weather_conditions_4",
   "light_conditions_1", "light_conditions_4",
   "junction_detail_0", "junction_detail_1", "junction_detail_2", "junction_detail_3",
   "number_of_vehicles", "number_of_casualties", "casualty_rate",
   "weather_risk", "surface_risk", "combined_risk",
   "is_night", "is_rush_hour", "is_weekend",
   "high_speed", "night_speed_risk", "weather_speed_risk"]

/-- A valid request with raw speed limit 50 (greater than 40). -/
def exampleInput : RequestInput := ⟨6, "Rain", 50, "Night", "Crossroads"⟩

set_option maxRecDepth 8000 in
/-- C1 (refuting evaluation): for the valid input with raw speed limit
50 > 40, the encoder leaves `high_speed` at 0 — the comparison against 40
is made after `speed_limit` has been zero-initialized (it is a schema
feature) and normalized — so `night_speed_risk` and `weather_speed_risk`
are 0 although `is_night` and `weather_risk` are both 1. -/
theorem c1_high_speed_always_zero_eval :
    exampleInput.speed_limit > 40 ∧
    (preprocess_input exampleSchema exampleInput).lookup "high_speed" = some 0 ∧
    (preprocess_input exampleSchema exampleInput).lookup "is_night" = some 1 ∧
    (preprocess_input exampleSchema exampleInput).lookup "weather_risk" = some 1 ∧
    (preprocess_input exampleSchema exampleInput).lookup "night_speed_risk" = some 0 ∧
    (preprocess_input exampleSchema exampleInput).lookup "weather_speed_risk" = some 0 := by
  have hc : ¬ ((((0 : ℤ) : ℚ)) / 70 > 40) := by norm_num
  refine ⟨by decide, ?_, ?_, ?_, ?_, ?_⟩
  · have e : (preprocess_input exampleSchema exampleInput).lookup "high_speed" =
        some (((if (((0 : ℤ) : ℚ)) / 70 > 40 then (1 : ℤ) else 0 : ℤ) : ℚ)) := rfl
    rw [e, if_neg hc]
    norm_num
  · rfl
  · rfl
  · have e : (preprocess_input exampleSchema exampleInput).lookup "night_speed_risk" =
        some ((((1 : ℤ) * (if (((0 : ℤ) : ℚ)) / 70 > 40 then (1 : ℤ) else 0) : ℤ) : ℚ)) := rfl
    rw [e, if_neg hc]
    norm_num
  · have e : (preprocess_input exampleSchema exampleInput).lookup "weather_speed_risk" =
        some ((((1 : ℤ) * (if (((0 : ℤ) : ℚ)) / 70 > 40 then (1 : ℤ) else 0) : ℤ) : ℚ)) := rfl
    rw [e, if_neg hc]
    norm_num

set_option maxRecDepth 8000 in
/-- C6 (refuting evaluation): with `speed_limit` among the schema's
feature names, the zero-initialization loop overwrites the raw speed
before it is normalized, so the encoded `speed_limit` feature is 0,
below the claimed lower bound 20/70. -/
theorem c6_speed_limit_feature_zero_eval :
    exampleInput.speed_limit = 50 ∧
    "speed_limit" ∈ exampleSchema ∧
    (preprocess_input exampleSchema exampleInput).lookup "speed_limit" = some 0 ∧
    (0 : ℚ) < 20 / 70 := by
  refine ⟨rfl, by decide, ?_, by norm_num⟩
  have e : (preprocess_input exampleSchema exampleInput).lookup "speed_limit" =
      some ((((0 : ℤ) : ℚ)) / 70) := rfl
  rw [e]
  norm_num
